import Mathlib

/-!
Verification of the anki-mcp server (Go): a shallow embedding of the
AnkiConnect RPC client (`ankiconnect.go`) and the MCP tool adapter
handlers (`main.go`, with the media-path variant's `processMediaData`).

External effects (the HTTP round trip, the filesystem, base64 decoding)
are modelled as explicit parameters carrying the value the external call
returned, so every handler becomes a pure function of its argument bag
and of those responses.  Go `interface{}` values decoded from JSON are
modelled by `GoValue`; JSON numbers appearing in the claims are note
identifiers, hence integers.
-/

namespace AnkiMCP

/-- A decoded Go `interface{}` JSON value (`map[string]interface{}`,
`[]interface{}`, `string`, number, bool, nil). -/
inductive GoValue : Type where
  | str (s : String)
  | num (n : Int)
  | bool (b : Bool)
  | null
  | arr (xs : List GoValue)
  | obj (fields : List (String × GoValue))

/-- A Go `map[string]interface{}` argument bag, as an association list
(Go map keys are unique; lookup takes the first binding). -/
def Args : Type := List (String × GoValue)

/-- Go map lookup `args[k]`, `none` when the key is absent. -/
def lookupA (args : Args) (k : String) : Option GoValue :=
  match args with
  | [] => none
  | (k', v) :: rest => if k' = k then some v else lookupA rest k

/-- The Go type assertion `v.(string)` applied to a possibly-missing map
entry: succeeds exactly on a present string value. -/
def asString : Option GoValue → Option String
  | some (GoValue.str s) => some s
  | _ => none

/-- The Go type assertion `v.([]interface{})`. -/
def asArr : Option GoValue → Option (List GoValue)
  | some (GoValue.arr xs) => some xs
  | _ => none

/-- The Go type assertion `v.(map[string]interface{})`. -/
def asObj : Option GoValue → Option (List (String × GoValue))
  | some (GoValue.obj fs) => some fs
  | _ => none

/-!  ## RPC client (`ankiconnect.go`)  -/

/-- The decoded AnkiConnect response envelope (`ankiResponse`): a
`result` field and an `error` string ("" when absent/null). -/
structure AnkiResponse where
  result : GoValue
  error : String

/-- The tail of `invoke` (ankiconnect.go:85-89), after the HTTP round
trip and the JSON decode both succeeded: a non-empty `error` field fails
with "AnkiConnect error: <msg>", otherwise the `result` field is
returned. -/
def invokeDecoded (r : AnkiResponse) : Except String GoValue :=
  if r.error ≠ "" then Except.error ("AnkiConnect error: " ++ r.error)
  else Except.ok r.result

/-- Narrowing loop of `GetDeckNames` (ankiconnect.go:99-119) applied to
the `invoke` outcome. -/
def getDeckNames (invokeResp : Except String GoValue) : Except String (List String) :=
  match invokeResp with
  | Except.error e => Except.error e
  | Except.ok v =>
    match asArr (some v) with
    | none => Except.error "unexpected response type"
    | some names => asStrings names
where
  /-- Element-wise `name.(string)` narrowing; first failure aborts. -/
  asStrings : List GoValue → Except String (List String)
    | [] => Except.ok []
    | GoValue.str s :: rest =>
      match asStrings rest with
      | Except.ok l => Except.ok (s :: l)
      | Except.error e => Except.error e
    | _ :: _ => Except.error "unexpected deck name type"

/-!  ## MCP result objects (`main.go`)  -/

/-- The `mcp.TextContent` value with its `Type` tag. -/
structure TextContent where
  ctype : String
  text : String
deriving DecidableEq, Repr

/-- The `mcp.CallToolResult` value: content list plus the `IsError` flag (Go zero
value `false` when not set). -/
structure CallToolResult where
  content : List TextContent
  isError : Bool
deriving DecidableEq, Repr

/-- A single `"text"`-typed content element. -/
def mkText (s : String) : TextContent := ⟨"text", s⟩

/-- A success result with one text element (`IsError` left at `false`). -/
def okResult (s : String) : CallToolResult := ⟨[mkText s], false⟩

/-- Model of `errorResult` (main.go:589-599). -/
def errorResult (message : String) : CallToolResult :=
  ⟨[mkText ("Error: " ++ message)], true⟩

/-- A Go handler return value `(*mcp.CallToolResult, error)`; the second
component is the Go `error` (`none` = `nil`). -/
def HandlerReturn : Type := CallToolResult × Option String

/-!  ## Note construction (`ankiconnect.go` `Note`, `MediaFile`)  -/

/-- The `MediaFile` attachment descriptor. -/
structure MediaFile where
  filename : String
  data : String
  mfields : List String

/-- The AnkiConnect `Note` payload; `fields` is the Go
`map[string]string` as a literal association list, `options` the
`map[string]interface{}`. -/
structure Note where
  deckName : String
  modelName : String
  fields : List (String × String)
  tags : List String
  audio : List MediaFile := []
  picture : List MediaFile := []
  options : List (String × GoValue)

/-- Tag extraction shared by the create-card handlers (main.go:225-232):
a `[]interface{}` argument keeps its string elements in order, anything
else (absent, wrong type) leaves the nil slice. -/
def extractTags (v : Option GoValue) : List String :=
  match asArr v with
  | some xs => xs.filterMap fun x => match x with
      | GoValue.str s => some s
      | _ => none
  | none => []

/-- Model-name defaulting (main.go:220-223): a present non-empty string
overrides `"Basic"`; absent, wrong-typed or empty keeps the default. -/
def modelNameOf (v : Option GoValue) : String :=
  match asString v with
  | some m => if m ≠ "" then m else "Basic"
  | none => "Basic"

/-- Validation and note-construction stage of `handleCreateCard`
(main.go:202-245): either an invalid-arguments message produced before
any RPC call, or the `Note` value passed to `AddNote`. -/
inductive CreateCardStage where
  | invalid (msg : String)
  | submit (note : Note)

/-- Model of `handleCreateCard` up to the `AddNote` call (main.go:202-245). -/
def createCardCore (args : Args) : CreateCardStage :=
  match asString (lookupA args "deck_name") with
  | none => CreateCardStage.invalid "deck_name is required and must be a string"
  | some deckName =>
    match asString (lookupA args "front") with
    | none => CreateCardStage.invalid "front is required and must be a string"
    | some front =>
      match asString (lookupA args "back") with
      | none => CreateCardStage.invalid "back is required and must be a string"
      | some back =>
        CreateCardStage.submit
          { deckName := deckName
            modelName := modelNameOf (lookupA args "model_name")
            fields := [("Front", front), ("Back", back)]
            tags := extractTags (lookupA args "tags")
            options := [("allowDuplicate", GoValue.bool false)] }

/-- Model of `handleCreateCard` (main.go:202-260); `addNoteResp` is the outcome
of the `AddNote` RPC call (consulted only when a note is submitted). -/
def handleCreateCard (args : Args) (addNoteResp : Except String Int) : HandlerReturn :=
  match createCardCore args with
  | CreateCardStage.invalid msg => (errorResult msg, none)
  | CreateCardStage.submit _ =>
    match addNoteResp with
    | Except.error e => (errorResult ("Failed to create card: " ++ e), none)
    | Except.ok id =>
      (okResult ("Successfully created card with ID: " ++ toString id), none)

/-- Model of `handleListDecks` (main.go:263-278); `decksResp` is the outcome of
`GetDeckNames`. -/
def handleListDecks (decksResp : Except String (List String)) : HandlerReturn :=
  match decksResp with
  | Except.error e => (errorResult ("Failed to get deck names: " ++ e), none)
  | Except.ok decks =>
    (okResult ("Available decks (" ++ toString decks.length ++ "):\n"
        ++ String.intercalate "\n" decks), none)

/-- Model of `handleCreateDeck` (main.go:281-302); `createResp` is the `error`
returned by `CreateDeck` (`none` = success). -/
def handleCreateDeck (args : Args) (createResp : Option String) : HandlerReturn :=
  match asString (lookupA args "deck_name") with
  | none => (errorResult "deck_name is required and must be a string", none)
  | some deckName =>
    match createResp with
    | some e => (errorResult ("Failed to create deck: " ++ e), none)
    | none => (okResult ("Successfully created deck: " ++ deckName), none)

/-- Model of `handleGetModels` (main.go:512-527). -/
def handleGetModels (modelsResp : Except String (List String)) : HandlerReturn :=
  match modelsResp with
  | Except.error e => (errorResult ("Failed to get models: " ++ e), none)
  | Except.ok models =>
    (okResult ("Available models (" ++ toString models.length ++ "):\n"
        ++ String.intercalate "\n" models), none)

/-- Model of `handleGetModelFields` (main.go:530-552). -/
def handleGetModelFields (args : Args) (fieldsResp : Except String (List String)) :
    HandlerReturn :=
  match asString (lookupA args "model_name") with
  | none => (errorResult "model_name is required and must be a string", none)
  | some modelName =>
    match fieldsResp with
    | Except.error e => (errorResult ("Failed to get model fields: " ++ e), none)
    | Except.ok fields =>
      (okResult ("Fields for model '" ++ modelName ++ "' ("
          ++ toString fields.length ++ "):\n" ++ String.intercalate "\n" fields), none)

/-- Model of `handleSync` (main.go:555-569). -/
def handleSync (syncResp : Option String) : HandlerReturn :=
  match syncResp with
  | some e => (errorResult ("Failed to sync: " ++ e), none)
  | none => (okResult "Successfully triggered sync with AnkiWeb", none)

/-- Model of `handlePing` (main.go:572-586). -/
def handlePing (pingResp : Option String) : HandlerReturn :=
  match pingResp with
  | some e => (errorResult ("AnkiConnect is not available: " ++ e), none)
  | none => (okResult "AnkiConnect is available and responding", none)

/-- Model of `handleAddMedia` (main.go:394-426); `decodeResp` is the outcome of
`base64.StdEncoding.DecodeString` on the supplied data string,
`storeResp` the `error` from `StoreMediaFile`. -/
def handleAddMedia (args : Args) (decodeResp : Except String (List Nat))
    (storeResp : Option String) : HandlerReturn :=
  match asString (lookupA args "filename") with
  | none => (errorResult "filename is required and must be a string", none)
  | some filename =>
    match asString (lookupA args "data") with
    | none => (errorResult "data is required and must be a string", none)
    | some _ =>
      match decodeResp with
      | Except.error e => (errorResult ("Failed to decode base64 data: " ++ e), none)
      | Except.ok _ =>
        match storeResp with
        | some e => (errorResult ("Failed to store media file: " ++ e), none)
        | none => (okResult ("Successfully stored media file: " ++ filename), none)

/-- One optional media slot of `handleCreateCardWithMedia`
(main.go:475-494): a descriptor is attached only when both the filename
and the data argument are present non-empty strings. -/
def mediaSlot (fnArg dataArg : Option GoValue) : List MediaFile :=
  match asString fnArg with
  | some fn =>
    if fn ≠ "" then
      match asString dataArg with
      | some d => if d ≠ "" then [⟨fn, d, ["Front"]⟩] else []
      | none => []
    else []
  | none => []

/-- Validation and note construction of `handleCreateCardWithMedia`
(main.go:432-494): same required/optional handling as `createCardCore`
(identical messages and note fields in the Go source), then the two
optional media slots are attached. -/
def createCardWithMediaCore (args : Args) : CreateCardStage :=
  match createCardCore args with
  | CreateCardStage.invalid msg => CreateCardStage.invalid msg
  | CreateCardStage.submit note =>
    CreateCardStage.submit
      { note with
        audio := mediaSlot (lookupA args "audio_filename") (lookupA args "audio_data")
        picture := mediaSlot (lookupA args "image_filename") (lookupA args "image_data") }

/-- Model of `handleCreateCardWithMedia` (main.go:429-509). -/
def handleCreateCardWithMedia (args : Args) (addNoteResp : Except String Int) :
    HandlerReturn :=
  match createCardWithMediaCore args with
  | CreateCardStage.invalid msg => (errorResult msg, none)
  | CreateCardStage.submit _ =>
    match addNoteResp with
    | Except.error e => (errorResult ("Failed to create card with media: " ++ e), none)
    | Except.ok id =>
      (okResult ("Successfully created card with media, ID: " ++ toString id), none)

/-!  ## Search handler (`main.go` `handleSearchCards`)  -/

/-- Digit run of `strconv.Atoi`: at least one character, all decimal
digits, value read in base 10. -/
def digitsVal : List Char → Option Nat
  | [] => none
  | cs =>
    if cs.all Char.isDigit then
      some (cs.foldl (fun acc c => acc * 10 + (c.toNat - 48)) 0)
    else none

/-- Go `strconv.Atoi`: optional sign, then a non-empty digit run, rejected
outside the 64-bit int range (Go reports `ErrRange`, so `err != nil`). -/
def atoi (s : String) : Option Int :=
  let signed : Int × List Char :=
    match s.toList with
    | '+' :: r => (1, r)
    | '-' :: r => (-1, r)
    | r => (1, r)
  match digitsVal signed.2 with
  | none => none
  | some n =>
    let v : Int := signed.1 * n
    if -(2 ^ 63) ≤ v ∧ v ≤ 2 ^ 63 - 1 then some v else none

/-- Limit defaulting of `handleSearchCards` (main.go:313-318): a present
non-empty string that parses to a positive integer overrides the default
10; everything else keeps 10.  (The Go variable is an `int`; it is only
ever assigned positive values, so `Nat` with `Int.toNat` is exact.) -/
def parseLimit (v : Option GoValue) : Nat :=
  match asString v with
  | some limitStr =>
    if limitStr ≠ "" then
      match atoi limitStr with
      | some parsedLimit => if parsedLimit > 0 then parsedLimit.toNat else 10
      | none => 10
    else 10
  | none => 10

/-- A per-note detail object from `GetNotesInfo`
(a `map[string]interface{}`). -/
def NoteObj : Type := List (String × GoValue)

/-- Front/Back extraction (main.go:355-365): the named entry of the
`fields` object must be an object whose `value` entry is a string;
anything else degrades to the empty string. -/
def fieldText (fields : NoteObj) (name : String) : String :=
  match asObj (lookupA fields name) with
  | some fieldObj =>
    match asString (lookupA fieldObj "value") with
    | some value => value
    | none => ""
  | none => ""

/-- One iteration of the rendering loop (main.go:348-381) for the note
object paired with `noteID`: `none` when the note is skipped by the
`continue` (its `fields` entry is not an object), otherwise the rendered
summary entry. -/
def renderNote (noteID : Int) (noteInfo : NoteObj) : Option String :=
  match asObj (lookupA noteInfo "fields") with
  | none => none
  | some fields =>
    let front := fieldText fields "Front"
    let back := fieldText fields "Back"
    let tags := extractTags (lookupA noteInfo "tags")
    let base := "ID: " ++ toString noteID ++ "\nFront: " ++ front ++ "\nBack: " ++ back
    some (if tags.length > 0 then base ++ "\nTags: " ++ String.intercalate ", " tags
          else base)

/-- The rendering loop `for i, noteInfo := range notesInfo` with
`noteID := noteIDs[i]` (main.go:347-381): iterates over the response
objects, indexing the retained identifier list; `none` models the Go
index-out-of-range panic when the response is longer than that list. -/
def renderNotes (noteIDs : List Int) : List NoteObj → Nat → Option (List String)
  | [], _ => some []
  | noteInfo :: rest, i =>
    match noteIDs[i]? with
    | none => none
    | some noteID =>
      match renderNotes noteIDs rest (i + 1) with
      | none => none
      | some tail =>
        match renderNote noteID noteInfo with
        | some entry => some (entry :: tail)
        | none => some tail

/-- First stage of `handleSearchCards` (main.go:305-339): validation,
limit defaulting, the `FindNotes` call, the empty-result early return,
and truncation.  `query ids` records that `GetNotesInfo` is called with
exactly `ids`; `result` returns without any `GetNotesInfo` call. -/
inductive SearchStage where
  | result (r : CallToolResult)
  | query (ids : List Int)

/-- Stage one of `handleSearchCards` (main.go:305-339); `findResp` is
the outcome of `FindNotes`. -/
def searchStage1 (args : Args) (findResp : Except String (List Int)) : SearchStage :=
  match asString (lookupA args "query") with
  | none => SearchStage.result (errorResult "query is required and must be a string")
  | some _ =>
    match findResp with
    | Except.error e =>
      SearchStage.result (errorResult ("Failed to search cards: " ++ e))
    | Except.ok noteIDs =>
      if noteIDs.length = 0 then
        SearchStage.result (okResult "No cards found matching the query.")
      else
        SearchStage.query
          (if noteIDs.length > parseLimit (lookupA args "limit") then
            noteIDs.take (parseLimit (lookupA args "limit"))
          else noteIDs)

/-- Stage two of `handleSearchCards` (main.go:342-391), given the
retained (truncated) identifiers and the `GetNotesInfo` outcome; `none`
models the indexing panic of the rendering loop. -/
def searchStage2 (noteIDs : List Int) (notesResp : Except String (List NoteObj)) :
    Option HandlerReturn :=
  match notesResp with
  | Except.error e => some (errorResult ("Failed to get note details: " ++ e), none)
  | Except.ok notesInfo =>
    match renderNotes noteIDs notesInfo 0 with
    | none => none
    | some results =>
      some (okResult ("Found " ++ toString noteIDs.length ++ " cards (showing "
          ++ toString results.length ++ "):\n\n"
          ++ String.intercalate "\n\n---\n\n" results), none)

/-- Model of `handleSearchCards` (main.go:305-391) as the composition of the two
stages; the `notesResp` parameter is unused unless `GetNotesInfo` is
actually called. -/
def handleSearchCards (args : Args) (findResp : Except String (List Int))
    (notesResp : Except String (List NoteObj)) : Option HandlerReturn :=
  match searchStage1 args findResp with
  | SearchStage.result r => some (r, none)
  | SearchStage.query ids => searchStage2 ids notesResp

/-!  ## Media payload resolution (`processMediaData`, media variant)  -/

/-- The filesystem as seen by `processMediaData`: `statOk p` is whether
`os.Stat p` succeeds, `readB64 p` the outcome of `fileToBase64 p`
(reading the file and base64-encoding its bytes; it can still fail). -/
structure FileSys where
  statOk : String → Bool
  readB64 : String → Except String String

/-- Prefix test on character lists (Go `strings.HasPrefix`). -/
def isPrefixOfChars : List Char → List Char → Bool
  | [], _ => true
  | _ :: _, [] => false
  | p :: ps, x :: xs => p = x && isPrefixOfChars ps xs

/-- Substring occurrence on character lists (Go `strings.Contains`). -/
def containsSubChars (pat : List Char) : List Char → Bool
  | [] => isPrefixOfChars pat []
  | x :: xs => isPrefixOfChars pat (x :: xs) || containsSubChars pat xs

/-- Split on every occurrence of a character (Go `strings.Split` with a
one-character separator): always at least one field, empty fields kept. -/
def splitOnCharL (c : Char) : List Char → List (List Char)
  | [] => [[]]
  | x :: xs =>
    if x = c then [] :: splitOnCharL c xs
    else
      match splitOnCharL c xs with
      | f :: rest => (x :: f) :: rest
      | [] => [[x]]

/-- Go `strings.HasPrefix s pre`. -/
def hasPrefixStr (s pre : String) : Bool := isPrefixOfChars pre.data s.data

/-- Go `strings.Contains s string(c)` for a one-character pattern. -/
def containsChar (s : String) (c : Char) : Bool := s.data.any fun x => x = c

/-- Go `strings.Contains s pat`. -/
def containsStr (s pat : String) : Bool := containsSubChars pat.data s.data

/-- Go `strings.Split(s, ",")`. -/
def splitComma (s : String) : List String := (splitOnCharL ',' s.data).map String.mk

/-- Model of `processMediaData` (media variant, lines 628-649): a `data:` string
is split on commas and must have exactly two parts; a path-looking
string (has a separator, no embedded `base64,` marker) that stats
successfully is read and encoded; everything else passes through. -/
def processMediaData (fs : FileSys) (data : String) : Except String String :=
  if hasPrefixStr data "data:" then
    match splitComma data with
    | [_, payload] => Except.ok payload
    | _ => Except.error "invalid data URI format"
  else if (containsChar data '/' || containsChar data '\\')
      && !containsStr data "base64," then
    if fs.statOk data then fs.readB64 data else Except.ok data
  else Except.ok data

end AnkiMCP

open AnkiMCP

/-! ### Helper lemmas -/

/-- A `[]interface{}` of strings keeps exactly those strings, in order. -/
theorem extractTags_strings (ts : List String) :
    extractTags (some (GoValue.arr (ts.map GoValue.str))) = ts := by
  simp only [extractTags, asArr, List.filterMap_map]
  induction ts with
  | nil => rfl
  | cons t rest ih => simpa [List.filterMap_cons] using ih

/-- Lemma: `extractTags` ignores everything that is not a `[]interface{}`. -/
theorem extractTags_not_arr (v : Option GoValue) (h : asArr v = none) :
    extractTags v = [] := by
  simp [extractTags, h]

/-- Lemma: `GetDeckNames` narrowing succeeds on an array of strings. -/
theorem getDeckNames_strings (l : List String) :
    getDeckNames (Except.ok (GoValue.arr (l.map GoValue.str))) = Except.ok l := by
  simp only [getDeckNames, asArr]
  induction l with
  | nil => rfl
  | cons s rest ih =>
    simp only [List.map_cons, getDeckNames.asStrings] at ih ⊢
    rw [show (getDeckNames.asStrings (rest.map GoValue.str)) = Except.ok rest from ih]

/-- C1: after a successful round trip and decode, `invoke` fails with an
error carrying the envelope's error message when that field is
non-empty, returns the envelope's result field when it is empty, and
never does both. -/
theorem C1_invoke_error_xor_result (r : AnkiResponse) :
    (r.error ≠ "" →
      invokeDecoded r = Except.error ("AnkiConnect error: " ++ r.error)) ∧
    (r.error = "" → invokeDecoded r = Except.ok r.result) ∧
    ¬ (∃ v e, invokeDecoded r = Except.ok v ∧ invokeDecoded r = Except.error e) := by
  refine ⟨fun h => ?_, fun h => ?_, ?_⟩
  · simp [invokeDecoded, h]
  · simp [invokeDecoded, h]
  · rintro ⟨v, e, h1, h2⟩
    rw [h1] at h2
    exact Except.noConfusion h2

/-- C1 witness: a concrete envelope with a non-empty error fails with
that message, one with an empty error returns its result. -/
theorem C1_invoke_error_xor_result_witness :
    invokeDecoded ⟨GoValue.null, "deck not found"⟩ =
      Except.error ("AnkiConnect error: " ++ "deck not found") ∧
    invokeDecoded ⟨GoValue.str "ok", ""⟩ = Except.ok (GoValue.str "ok") :=
  ⟨(C1_invoke_error_xor_result ⟨GoValue.null, "deck not found"⟩).1 (by decide),
   (C1_invoke_error_xor_result ⟨GoValue.str "ok", ""⟩).2.1 rfl⟩

/-- C2: with `deck_name`, `front`, `back` present as strings, the note
submitted to `AddNote` has exactly the fields `Front` and `Back` with
the supplied contents, the extracted tag list (equal to the input list,
order preserved, when the input is a string array), and
`allowDuplicate = false`; with any of the three missing or non-string,
the handler reaches an invalid-arguments outcome before the RPC call and
its result does not depend on any RPC response. -/
theorem C2_create_card_note (args : Args) :
    (∀ d f b, asString (lookupA args "deck_name") = some d →
      asString (lookupA args "front") = some f →
      asString (lookupA args "back") = some b →
      ∃ note, createCardCore args = CreateCardStage.submit note ∧
        note.deckName = d ∧
        note.fields = [("Front", f), ("Back", b)] ∧
        note.options = [("allowDuplicate", GoValue.bool false)] ∧
        note.tags = extractTags (lookupA args "tags") ∧
        (∀ ts : List String,
          lookupA args "tags" = some (GoValue.arr (ts.map GoValue.str)) →
          note.tags = ts) ∧
        (lookupA args "tags" = none → note.tags = [])) ∧
    ((asString (lookupA args "deck_name") = none ∨
      asString (lookupA args "front") = none ∨
      asString (lookupA args "back") = none) →
      (∃ msg, createCardCore args = CreateCardStage.invalid msg) ∧
      ∀ resp resp' : Except String Int,
        handleCreateCard args resp = handleCreateCard args resp') := by
  constructor
  · intro d f b hd hf hb
    have hcore : createCardCore args = CreateCardStage.submit
        { deckName := d
          modelName := modelNameOf (lookupA args "model_name")
          fields := [("Front", f), ("Back", b)]
          tags := extractTags (lookupA args "tags")
          options := [("allowDuplicate", GoValue.bool false)] } := by
      simp [createCardCore, hd, hf, hb]
    refine ⟨_, hcore, rfl, rfl, rfl, rfl, ?_, ?_⟩
    · intro ts hts
      simp only [hts]
      exact extractTags_strings ts
    · intro hnone
      simp [hnone, extractTags, asArr]
  · intro hmiss
    have hinv : ∃ msg, createCardCore args = CreateCardStage.invalid msg := by
      rcases hmiss with h | h | h
      · exact ⟨"deck_name is required and must be a string",
          by simp [createCardCore, h]⟩
      · cases hd : asString (lookupA args "deck_name") with
        | none => exact ⟨"deck_name is required and must be a string",
            by simp [createCardCore, hd]⟩
        | some d => exact ⟨"front is required and must be a string",
            by simp [createCardCore, hd, h]⟩
      · cases hd : asString (lookupA args "deck_name") with
        | none => exact ⟨"deck_name is required and must be a string",
            by simp [createCardCore, hd]⟩
        | some d =>
          cases hf : asString (lookupA args "front") with
          | none => exact ⟨"front is required and must be a string",
              by simp [createCardCore, hd, hf]⟩
          | some f => exact ⟨"back is required and must be a string",
              by simp [createCardCore, hd, hf, h]⟩
    refine ⟨hinv, ?_⟩
    obtain ⟨msg, hmsg⟩ := hinv
    intro resp resp'
    simp [handleCreateCard, hmsg]

/-- C2 witness: a fully-specified invocation submits the expected note,
and one with `front` missing is rejected independent of the RPC
response. -/
theorem C2_create_card_note_witness :
    (∃ note,
      createCardCore [("deck_name", GoValue.str "D"), ("front", GoValue.str "F"),
          ("back", GoValue.str "B"),
          ("tags", GoValue.arr [GoValue.str "t1", GoValue.str "t2"])] =
        CreateCardStage.submit note ∧
      note.deckName = "D" ∧
      note.fields = [("Front", "F"), ("Back", "B")] ∧
      note.options = [("allowDuplicate", GoValue.bool false)] ∧
      note.tags = ["t1", "t2"]) ∧
    (∃ msg, createCardCore [("deck_name", GoValue.str "D")] =
      CreateCardStage.invalid msg) := by
  constructor
  · obtain ⟨note, h1, h2, h3, h4, _, h6, _⟩ :=
      (C2_create_card_note [("deck_name", GoValue.str "D"), ("front", GoValue.str "F"),
          ("back", GoValue.str "B"),
          ("tags", GoValue.arr [GoValue.str "t1", GoValue.str "t2"])]).1
        "D" "F" "B" rfl rfl rfl
    exact ⟨note, h1, h2, h3, h4,
      h6 ["t1", "t2"] (by simp [lookupA])⟩
  · exact ((C2_create_card_note [("deck_name", GoValue.str "D")]).2
      (Or.inr (Or.inl rfl))).1

/-- C9: each optional field falls back to its default when absent or
empty, and a present-but-wrong-typed optional is treated exactly as an
absent one (same value as the absent case, never an error outcome):
`model_name` defaults to "Basic", the search limit to 10, tags to the
empty list; wrong-typed optionals still leave the handler on the
note-submission path. -/
theorem C9_optional_leniency :
    (modelNameOf none = "Basic" ∧
      (∀ v : GoValue, asString (some v) = none →
        modelNameOf (some v) = "Basic") ∧
      modelNameOf (some (GoValue.str "")) = "Basic") ∧
    (parseLimit none = 10 ∧
      (∀ v : GoValue, asString (some v) = none →
        parseLimit (some v) = 10) ∧
      parseLimit (some (GoValue.str "")) = 10) ∧
    (extractTags none = [] ∧
      (∀ v : GoValue, asArr (some v) = none →
        extractTags (some v) = [])) ∧
    (∀ (args : Args) (d f b : String),
      asString (lookupA args "deck_name") = some d →
      asString (lookupA args "front") = some f →
      asString (lookupA args "back") = some b →
      ∃ note, createCardCore args = CreateCardStage.submit note ∧
        note.modelName = modelNameOf (lookupA args "model_name") ∧
        note.tags = extractTags (lookupA args "tags")) := by
  refine ⟨⟨rfl, fun v h => by simp [modelNameOf, h], rfl⟩,
    ⟨rfl, fun v h => by simp [parseLimit, h], rfl⟩,
    ⟨rfl, fun v h => extractTags_not_arr (some v) h⟩, ?_⟩
  intro args d f b hd hf hb
  have hcore : createCardCore args = CreateCardStage.submit
      { deckName := d
        modelName := modelNameOf (lookupA args "model_name")
        fields := [("Front", f), ("Back", b)]
        tags := extractTags (lookupA args "tags")
        options := [("allowDuplicate", GoValue.bool false)] } := by
    simp [createCardCore, hd, hf, hb]
  exact ⟨_, hcore, rfl, rfl⟩

/-- C9 witness: wrong-typed optionals at a concrete invocation behave as
absent ones — `model_name` given as a number yields "Basic", a numeric
limit yields 10, numeric tags yield no tags — and the handler still
submits a note. -/
theorem C9_optional_leniency_witness :
    modelNameOf (some (GoValue.num 3)) = "Basic" ∧
    parseLimit (some (GoValue.num 3)) = 10 ∧
    extractTags (some (GoValue.num 3)) = [] ∧
    ∃ note,
      createCardCore [("deck_name", GoValue.str "D"), ("front", GoValue.str "F"),
          ("back", GoValue.str "B"), ("model_name", GoValue.num 3)] =
        CreateCardStage.submit note ∧
      note.modelName = modelNameOf (some (GoValue.num 3)) := by
  refine ⟨C9_optional_leniency.1.2.1 (GoValue.num 3) rfl,
    C9_optional_leniency.2.1.2.1 (GoValue.num 3) rfl,
    C9_optional_leniency.2.2.1.2 (GoValue.num 3) rfl, ?_⟩
  obtain ⟨note, h1, h2, _⟩ :=
    C9_optional_leniency.2.2.2
      [("deck_name", GoValue.str "D"), ("front", GoValue.str "F"),
        ("back", GoValue.str "B"), ("model_name", GoValue.num 3)]
      "D" "F" "B" rfl rfl rfl
  exact ⟨note, h1, by rw [h2]; rfl⟩

/-- C10: when `FindNotes` returns an empty identifier list for a valid
query, the handler returns the success-flagged text
"No cards found matching the query." without calling `GetNotesInfo`
(stage one already yields the final result, and the full handler is
independent of any `GetNotesInfo` response). -/
theorem C10_search_empty (args : Args) (q : String)
    (hq : asString (lookupA args "query") = some q) :
    searchStage1 args (Except.ok []) =
      SearchStage.result (okResult "No cards found matching the query.") ∧
    (okResult "No cards found matching the query.").isError = false ∧
    ∀ notesResp : Except String (List NoteObj),
      handleSearchCards args (Except.ok []) notesResp =
        some (okResult "No cards found matching the query.", none) := by
  have h1 : searchStage1 args (Except.ok []) =
      SearchStage.result (okResult "No cards found matching the query.") := by
    simp [searchStage1, hq]
  exact ⟨h1, rfl, fun notesResp => by simp [handleSearchCards, h1]⟩

/-- C10 witness: a concrete query with an empty match list. -/
theorem C10_search_empty_witness :
    handleSearchCards [("query", GoValue.str "deck:Empty")] (Except.ok [])
        (Except.error "never consulted") =
      some (okResult "No cards found matching the query.", none) :=
  (C10_search_empty [("query", GoValue.str "deck:Empty")] "deck:Empty" rfl).2.2
    (Except.error "never consulted")

/-- C7: a `deckNames` result narrowed by `GetDeckNames` renders as
"Available decks (<n>):" followed by the newline-joined names, and in
particular `["Default", "Spanish"]` renders exactly
"Available decks (2):\nDefault\nSpanish". -/
theorem C7_list_decks_render :
    (∀ l : List String,
      handleListDecks (getDeckNames (Except.ok (GoValue.arr (l.map GoValue.str)))) =
        (okResult ("Available decks (" ++ toString l.length ++ "):\n"
            ++ String.intercalate "\n" l), none)) ∧
    handleListDecks (getDeckNames (Except.ok
        (GoValue.arr [GoValue.str "Default", GoValue.str "Spanish"]))) =
      (okResult "Available decks (2):\nDefault\nSpanish", none) := by
  constructor
  · intro l
    rw [getDeckNames_strings l]
    rfl
  · rfl

/-- A note whose `fields` entry is an object is rendered. -/
theorem renderNote_isSome (id : Int) (note : NoteObj)
    (h : (asObj (lookupA note "fields")).isSome = true) :
    ∃ s, renderNote id note = some s := by
  unfold renderNote
  cases hf : asObj (lookupA note "fields") with
  | none => rw [hf] at h; simp at h
  | some fields => exact ⟨_, rfl⟩

/-- When the response is no longer than the identifier list and every
note carries an object-valued `fields` entry, the loop renders exactly
one entry per note. -/
theorem renderNotes_all (noteIDs : List Int) (notes : List NoteObj) :
    ∀ i : Nat, i + notes.length ≤ noteIDs.length →
      (∀ note ∈ notes, (asObj (lookupA note "fields")).isSome = true) →
      ∃ rs, renderNotes noteIDs notes i = some rs ∧ rs.length = notes.length := by
  induction notes with
  | nil => intro i _ _; exact ⟨[], rfl, rfl⟩
  | cons note rest ih =>
    intro i hle hwf
    have hi : i < noteIDs.length := by
      simp only [List.length_cons] at hle; omega
    have hid : noteIDs[i]? = some noteIDs[i] := List.getElem?_eq_getElem hi
    obtain ⟨rs, hrs, hlen⟩ := ih (i + 1)
      (by simp only [List.length_cons] at hle; omega)
      (fun n hn => hwf n (List.mem_cons_of_mem _ hn))
    obtain ⟨s, hs⟩ := renderNote_isSome noteIDs[i] note
      (hwf note (List.mem_cons_self _ _))
    refine ⟨s :: rs, ?_, by simp [hlen]⟩
    simp [renderNotes, hid, hrs, hs]

/-- When the response is no longer than the identifier list the loop
never panics, whatever the notes look like. -/
theorem renderNotes_bounded (noteIDs : List Int) (notes : List NoteObj) :
    ∀ i : Nat, i + notes.length ≤ noteIDs.length →
      ∃ rs, renderNotes noteIDs notes i = some rs := by
  induction notes with
  | nil => intro i _; exact ⟨[], rfl⟩
  | cons note rest ih =>
    intro i hle
    have hi : i < noteIDs.length := by
      simp only [List.length_cons] at hle; omega
    have hid : noteIDs[i]? = some noteIDs[i] := List.getElem?_eq_getElem hi
    obtain ⟨rs, hrs⟩ := ih (i + 1) (by simp only [List.length_cons] at hle; omega)
    cases hr : renderNote noteIDs[i] note with
    | none => exact ⟨rs, by simp [renderNotes, hid, hrs, hr]⟩
    | some s => exact ⟨s :: rs, by simp [renderNotes, hid, hrs, hr]⟩

/-- C3 counterexample: query "q" with limit "1" and two matching note
identifiers renders "Found 1 cards", i.e. the reported found count is
the count after truncation, not the full match count 2 the claim
requires. -/
theorem C3_found_count_counterexample :
    handleSearchCards [("query", GoValue.str "q"), ("limit", GoValue.str "1")]
        (Except.ok [1, 2])
        (Except.ok [[("fields", GoValue.obj
          [("Front", GoValue.obj [("value", GoValue.str "f")]),
           ("Back", GoValue.obj [("value", GoValue.str "b")])])]]) =
      some (okResult "Found 1 cards (showing 1):\n\nID: 1\nFront: f\nBack: b",
        none) ∧
    ([1, 2] : List Int).length = 2 := by
  exact ⟨rfl, rfl⟩

/-- C3 (amended): an absent, unparseable or non-positive limit leaves
the effective limit at 10; a positive parseable limit smaller than the
match count retains exactly that many identifiers and renders exactly
that many entries, and the reported found count equals the truncated
count (the limit), not the full match count. -/
theorem C3_search_limit_amended (args : Args) (q limitStr : String) (n : Int)
    (ids : List Int) (notes : List NoteObj)
    (hq : asString (lookupA args "query") = some q)
    (hl : lookupA args "limit" = some (GoValue.str limitStr))
    (hne : limitStr ≠ "")
    (hparse : atoi limitStr = some n)
    (hpos : 0 < n)
    (hlt : n.toNat < ids.length)
    (hnotes : notes.length = n.toNat)
    (hwf : ∀ note ∈ notes, (asObj (lookupA note "fields")).isSome = true) :
    (parseLimit none = 10 ∧
      (∀ s : String, atoi s = none → parseLimit (some (GoValue.str s)) = 10) ∧
      (∀ (s : String) (m : Int), atoi s = some m → m ≤ 0 →
        parseLimit (some (GoValue.str s)) = 10)) ∧
    searchStage1 args (Except.ok ids) = SearchStage.query (ids.take n.toNat) ∧
    ∃ results, renderNotes (ids.take n.toNat) notes 0 = some results ∧
      results.length = n.toNat ∧
      searchStage2 (ids.take n.toNat) (Except.ok notes) =
        some (okResult ("Found " ++ toString n.toNat ++ " cards (showing "
            ++ toString n.toNat ++ "):\n\n"
            ++ String.intercalate "\n\n---\n\n" results), none) := by
  have hdefaults : parseLimit none = 10 ∧
      (∀ s : String, atoi s = none → parseLimit (some (GoValue.str s)) = 10) ∧
      (∀ (s : String) (m : Int), atoi s = some m → m ≤ 0 →
        parseLimit (some (GoValue.str s)) = 10) := by
    refine ⟨rfl, ?_, ?_⟩
    · intro s h
      by_cases hs : s = ""
      · simp [parseLimit, asString, hs]
      · simp [parseLimit, asString, hs, h]
    · intro s m h hm
      simp only [parseLimit, asString, h]
      by_cases hs : s = ""
      · rw [if_neg (not_not_intro hs)]
      · rw [if_pos hs, if_neg (by omega : ¬ m > 0)]
  have hplim : parseLimit (lookupA args "limit") = n.toNat := by
    rw [hl]
    simp only [parseLimit, asString, hparse]
    rw [if_pos hne, if_pos hpos]
  have hTlen : (ids.take n.toNat).length = n.toNat := by
    rw [List.length_take]; omega
  have hstage1 : searchStage1 args (Except.ok ids) =
      SearchStage.query (ids.take n.toNat) := by
    have h0 : ¬ ids.length = 0 := by omega
    have h1 : ids.length > n.toNat := hlt
    simp [searchStage1, hq, hplim, h0, h1]
  obtain ⟨rs, hrs, hlen⟩ := renderNotes_all (ids.take n.toNat) notes 0
    (by omega) hwf
  refine ⟨hdefaults, hstage1, rs, hrs, by omega, ?_⟩
  simp only [searchStage2, hrs, hTlen]
  rw [show rs.length = n.toNat by omega]

/-- C3 witness: limit "1" against two matches retains exactly one
identifier and renders one entry with found count 1. -/
theorem C3_search_limit_amended_witness :
    searchStage1 [("query", GoValue.str "q"), ("limit", GoValue.str "1")]
        (Except.ok [10, 20]) = SearchStage.query [10] ∧
    searchStage2 [10]
        (Except.ok [[("fields", GoValue.obj
          [("Front", GoValue.obj [("value", GoValue.str "f")]),
           ("Back", GoValue.obj [("value", GoValue.str "b")])])]]) =
      some (okResult "Found 1 cards (showing 1):\n\nID: 10\nFront: f\nBack: b",
        none) := by
  have h := C3_search_limit_amended
    [("query", GoValue.str "q"), ("limit", GoValue.str "1")] "q" "1" 1 [10, 20]
    [[("fields", GoValue.obj
      [("Front", GoValue.obj [("value", GoValue.str "f")]),
       ("Back", GoValue.obj [("value", GoValue.str "b")])])]]
    rfl rfl (by decide) (by decide) (by decide) (by decide) rfl
    (by intro note hn
        simp only [List.mem_singleton] at hn
        subst hn
        rfl)
  exact ⟨h.2.1, rfl⟩

/-- C6 counterexample: a note object in the `getNotesInfo` response
whose `fields` entry is missing produces no rendered summary entry (the
loop skips it with `continue`): one note object, zero entries. -/
theorem C6_skipped_note_counterexample :
    renderNote 1 [("x", GoValue.null)] = none ∧
    searchStage2 [1] (Except.ok [[("x", GoValue.null)]]) =
      some (okResult "Found 1 cards (showing 0):\n\n", none) := by
  exact ⟨rfl, rfl⟩

/-- C6 (amended): missing or malformed sub-fields inside a note's
`fields` object (the `Front`/`Back` objects, their `value` entries, the
`tags` list) degrade silently to empty values and a summary entry is
still rendered; but a note whose top-level `fields` entry is not an
object is skipped silently (no entry), and in neither case does the call
fail: whenever the response is no longer than the identifier list the
handler returns a success-flagged result. -/
theorem C6_render_degrades_silently (id : Int) (note : NoteObj) :
    ((asObj (lookupA note "fields")).isSome = true →
      ∃ s, renderNote id note = some s) ∧
    (asObj (lookupA note "fields") = none → renderNote id note = none) ∧
    (∀ fields : List (String × GoValue),
      lookupA note "fields" = some (GoValue.obj fields) →
      asObj (lookupA fields "Front") = none →
      asObj (lookupA fields "Back") = none →
      asArr (lookupA note "tags") = none →
      renderNote id note =
        some ("ID: " ++ toString id ++ "\nFront: " ++ "" ++ "\nBack: " ++ "")) ∧
    (∀ (ids : List Int) (notes : List NoteObj), notes.length ≤ ids.length →
      ∃ r : CallToolResult, searchStage2 ids (Except.ok notes) = some (r, none) ∧
        r.isError = false) := by
  refine ⟨renderNote_isSome id note, ?_, ?_, ?_⟩
  · intro h
    unfold renderNote
    rw [h]
  · intro fields hf hfront hback htags
    unfold renderNote
    rw [hf]
    show some _ = _
    rw [show fieldText fields "Front" = "" by unfold fieldText; rw [hfront],
      show fieldText fields "Back" = "" by unfold fieldText; rw [hback],
      extractTags_not_arr _ htags]
    rfl
  · intro ids notes hle
    obtain ⟨rs, hrs⟩ := renderNotes_bounded ids notes 0 (by omega)
    refine ⟨okResult ("Found " ++ toString ids.length ++ " cards (showing "
        ++ toString rs.length ++ "):\n\n"
        ++ String.intercalate "\n\n---\n\n" rs), ?_, rfl⟩
    simp [searchStage2, hrs]

/-- C6 witness: a note whose `fields` object lacks both `Front` and
`Back` and whose `tags` entry is a number still yields an entry with
empty front/back, and a length-matched response yields a success-flagged
result. -/
theorem C6_render_degrades_silently_witness :
    renderNote 7 [("fields", GoValue.obj []), ("tags", GoValue.num 3)] =
      some ("ID: " ++ toString (7 : Int) ++ "\nFront: " ++ "" ++ "\nBack: " ++ "") ∧
    ∃ r : CallToolResult,
      searchStage2 [5] (Except.ok [[("x", GoValue.null)]]) = some (r, none) ∧
        r.isError = false := by
  constructor
  · exact (C6_render_degrades_silently 7
        [("fields", GoValue.obj []), ("tags", GoValue.num 3)]).2.2.1
      [] rfl rfl rfl rfl
  · exact (C6_render_degrades_silently 0 []).2.2.2 [5] [[("x", GoValue.null)]]
      (by decide)

/-- C4 counterexample: a data URI containing two commas fails with the
format error although it does contain a comma, where the claim demands
success with the portion after the first comma (and failure only on
comma-free input). -/
theorem C4_two_comma_counterexample :
    processMediaData ⟨fun _ => false, fun _ => Except.error "unused"⟩
        "data:image/png;base64,AA,BB" =
      Except.error "invalid data URI format" ∧
    containsChar "data:image/png;base64,AA,BB" ',' = true := by
  exact ⟨rfl, rfl⟩

/-- C4 (amended): for input starting with the data-URI marker, the
string is split on commas; with exactly one comma (two parts) the part
after the comma is returned as the payload, and with any other comma
count (zero, or two and more) resolution fails with the format error.
In particular `data:image/png;base64,AAAA` resolves to `AAAA`. -/
theorem C4_data_uri_split (fs : FileSys) (s : String)
    (hp : hasPrefixStr s "data:" = true) :
    (∀ a b : String, splitComma s = [a, b] →
      processMediaData fs s = Except.ok b) ∧
    ((splitComma s).length ≠ 2 →
      processMediaData fs s = Except.error "invalid data URI format") := by
  constructor
  · intro a b hab
    unfold processMediaData
    rw [if_pos hp, hab]
  · intro hlen
    unfold processMediaData
    rw [if_pos hp]
    rcases hsp : splitComma s with _ | ⟨a, _ | ⟨b, _ | ⟨c, t⟩⟩⟩
    · rfl
    · rfl
    · exact absurd (by simp [hsp]) hlen
    · rfl

/-- C4 witness: the spec's own example, resolved through the amended
theorem. -/
theorem C4_data_uri_split_witness :
    processMediaData ⟨fun _ => false, fun _ => Except.error "unused"⟩
        "data:image/png;base64,AAAA" = Except.ok "AAAA" ∧
    processMediaData ⟨fun _ => false, fun _ => Except.error "unused"⟩
        "data:nocomma" = Except.error "invalid data URI format" := by
  constructor
  · exact (C4_data_uri_split ⟨fun _ => false, fun _ => Except.error "unused"⟩
      "data:image/png;base64,AAAA" rfl).1 "data:image/png;base64" "AAAA" rfl
  · exact (C4_data_uri_split ⟨fun _ => false, fun _ => Except.error "unused"⟩
      "data:nocomma" rfl).2 (by simp [splitComma, splitOnCharL])

/-- C8: pass-through input — not a data URI and not matching the
path-file pattern (no separator, or carrying the embedded base64 marker,
or failing the filesystem stat) — is returned unchanged, so resolving a
second time yields the same outcome as resolving once. -/
theorem C8_passthrough_idempotent (fs : FileSys) (s : String)
    (hd : hasPrefixStr s "data:" = false)
    (hcond : (containsChar s '/' || containsChar s '\\') = false ∨
      containsStr s "base64," = true ∨ fs.statOk s = false) :
    processMediaData fs s = Except.ok s ∧
    (processMediaData fs s).bind (processMediaData fs) = processMediaData fs s := by
  have h1 : processMediaData fs s = Except.ok s := by
    unfold processMediaData
    rw [if_neg (by simp [hd])]
    rcases hcond with h | h | h
    · rw [if_neg (by simp [h])]
    · rw [if_neg (by simp [h])]
    · by_cases hsep : ((containsChar s '/' || containsChar s '\\')
          && !containsStr s "base64,") = true
      · rw [if_pos hsep, if_neg (by simp [h])]
      · rw [if_neg hsep]
  refine ⟨h1, ?_⟩
  rw [h1]
  simpa [Except.bind] using h1

/-- C8 witness: a payload string with no separator passes through
unchanged and resolving twice equals resolving once. -/
theorem C8_passthrough_idempotent_witness :
    processMediaData ⟨fun _ => true, fun _ => Except.error "unused"⟩ "QUJD" =
      Except.ok "QUJD" ∧
    (processMediaData ⟨fun _ => true, fun _ => Except.error "unused"⟩ "QUJD").bind
        (processMediaData ⟨fun _ => true, fun _ => Except.error "unused"⟩) =
      processMediaData ⟨fun _ => true, fun _ => Except.error "unused"⟩ "QUJD" :=
  C8_passthrough_idempotent ⟨fun _ => true, fun _ => Except.error "unused"⟩ "QUJD"
    rfl (Or.inl rfl)

/-- A success result is never flagged as an error. -/
theorem okResult_not_error (s : String) (h : (okResult s).isError = true) : False :=
  Bool.noConfusion h

/-- Stage one of the search handler only returns early with an
`errorResult` or with the no-cards success text. -/
theorem searchStage1_result_shape (args : Args) (fr : Except String (List Int))
    (r : CallToolResult) (h : searchStage1 args fr = SearchStage.result r) :
    (∃ m, r = errorResult m) ∨ r = okResult "No cards found matching the query." := by
  unfold searchStage1 at h
  split at h
  · exact Or.inl ⟨_, (SearchStage.result.inj h).symm⟩
  · split at h
    · exact Or.inl ⟨_, (SearchStage.result.inj h).symm⟩
    · split at h
      · exact Or.inr (SearchStage.result.inj h).symm
      · exact absurd h (by simp)


/-- C5: every tool handler of the adapter returns a nil Go error on
every path; `errorResult m` is always flagged (`IsError` set) with the
single text "Error: <m>"; every failure produces exactly such a result —
each validation failure (missing/wrong-typed required argument) and each
propagated RPC-client failure yields the corresponding `errorResult` —
and conversely every error-flagged result is an `errorResult`.  For the
search handler this holds on every invocation that returns (the
rendering loop can only panic on a response longer than the identifier
list, which is neither a validation nor an RPC failure and returns no
fault value). -/
theorem C5_handlers_well_formed :
    (∀ m : String, (errorResult m).isError = true ∧
      (errorResult m).content = [mkText ("Error: " ++ m)]) ∧
    (∀ (args : Args) (resp : Except String Int),
      (handleCreateCard args resp).2 = none ∧
      ((handleCreateCard args resp).1.isError = true →
        ∃ m, (handleCreateCard args resp).1 = errorResult m) ∧
      (∀ msg, createCardCore args = CreateCardStage.invalid msg →
        handleCreateCard args resp = (errorResult msg, none)) ∧
      (∀ note e, createCardCore args = CreateCardStage.submit note →
        resp = Except.error e →
        handleCreateCard args resp =
          (errorResult ("Failed to create card: " ++ e), none))) ∧
    (∀ resp : Except String (List String),
      (handleListDecks resp).2 = none ∧
      ((handleListDecks resp).1.isError = true →
        ∃ m, (handleListDecks resp).1 = errorResult m) ∧
      (∀ e, resp = Except.error e →
        handleListDecks resp =
          (errorResult ("Failed to get deck names: " ++ e), none))) ∧
    (∀ (args : Args) (resp : Option String),
      (handleCreateDeck args resp).2 = none ∧
      ((handleCreateDeck args resp).1.isError = true →
        ∃ m, (handleCreateDeck args resp).1 = errorResult m) ∧
      (asString (lookupA args "deck_name") = none →
        handleCreateDeck args resp =
          (errorResult "deck_name is required and must be a string", none)) ∧
      (∀ d e, asString (lookupA args "deck_name") = some d → resp = some e →
        handleCreateDeck args resp =
          (errorResult ("Failed to create deck: " ++ e), none))) ∧
    (∀ resp : Except String (List String),
      (handleGetModels resp).2 = none ∧
      ((handleGetModels resp).1.isError = true →
        ∃ m, (handleGetModels resp).1 = errorResult m) ∧
      (∀ e, resp = Except.error e →
        handleGetModels resp =
          (errorResult ("Failed to get models: " ++ e), none))) ∧
    (∀ (args : Args) (resp : Except String (List String)),
      (handleGetModelFields args resp).2 = none ∧
      ((handleGetModelFields args resp).1.isError = true →
        ∃ m, (handleGetModelFields args resp).1 = errorResult m) ∧
      (asString (lookupA args "model_name") = none →
        handleGetModelFields args resp =
          (errorResult "model_name is required and must be a string", none)) ∧
      (∀ mn e, asString (lookupA args "model_name") = some mn →
        resp = Except.error e →
        handleGetModelFields args resp =
          (errorResult ("Failed to get model fields: " ++ e), none))) ∧
    (∀ resp : Option String,
      (handleSync resp).2 = none ∧
      ((handleSync resp).1.isError = true →
        ∃ m, (handleSync resp).1 = errorResult m) ∧
      (∀ e, resp = some e →
        handleSync resp = (errorResult ("Failed to sync: " ++ e), none))) ∧
    (∀ resp : Option String,
      (handlePing resp).2 = none ∧
      ((handlePing resp).1.isError = true →
        ∃ m, (handlePing resp).1 = errorResult m) ∧
      (∀ e, resp = some e →
        handlePing resp =
          (errorResult ("AnkiConnect is not available: " ++ e), none))) ∧
    (∀ (args : Args) (decodeResp : Except String (List Nat)) (storeResp : Option String),
      (handleAddMedia args decodeResp storeResp).2 = none ∧
      ((handleAddMedia args decodeResp storeResp).1.isError = true →
        ∃ m, (handleAddMedia args decodeResp storeResp).1 = errorResult m) ∧
      (asString (lookupA args "filename") = none →
        handleAddMedia args decodeResp storeResp =
          (errorResult "filename is required and must be a string", none)) ∧
      (∀ fn, asString (lookupA args "filename") = some fn →
        asString (lookupA args "data") = none →
        handleAddMedia args decodeResp storeResp =
          (errorResult "data is required and must be a string", none)) ∧
      (∀ fn d e, asString (lookupA args "filename") = some fn →
        asString (lookupA args "data") = some d →
        decodeResp = Except.error e →
        handleAddMedia args decodeResp storeResp =
          (errorResult ("Failed to decode base64 data: " ++ e), none)) ∧
      (∀ fn d bytes e, asString (lookupA args "filename") = some fn →
        asString (lookupA args "data") = some d →
        decodeResp = Except.ok bytes → storeResp = some e →
        handleAddMedia args decodeResp storeResp =
          (errorResult ("Failed to store media file: " ++ e), none))) ∧
    (∀ (args : Args) (resp : Except String Int),
      (handleCreateCardWithMedia args resp).2 = none ∧
      ((handleCreateCardWithMedia args resp).1.isError = true →
        ∃ m, (handleCreateCardWithMedia args resp).1 = errorResult m) ∧
      (∀ msg, createCardWithMediaCore args = CreateCardStage.invalid msg →
        handleCreateCardWithMedia args resp = (errorResult msg, none)) ∧
      (∀ note e, createCardWithMediaCore args = CreateCardStage.submit note →
        resp = Except.error e →
        handleCreateCardWithMedia args resp =
          (errorResult ("Failed to create card with media: " ++ e), none))) ∧
    (∀ (args : Args) (fr : Except String (List Int))
        (nr : Except String (List NoteObj)),
      (∀ r : HandlerReturn, handleSearchCards args fr nr = some r →
        r.2 = none ∧ (r.1.isError = true → ∃ m, r.1 = errorResult m)) ∧
      (asString (lookupA args "query") = none →
        handleSearchCards args fr nr =
          some (errorResult "query is required and must be a string", none)) ∧
      (∀ q e, asString (lookupA args "query") = some q →
        fr = Except.error e →
        handleSearchCards args fr nr =
          some (errorResult ("Failed to search cards: " ++ e), none)) ∧
      (∀ ids e, searchStage1 args fr = SearchStage.query ids →
        nr = Except.error e →
        handleSearchCards args fr nr =
          some (errorResult ("Failed to get note details: " ++ e), none))) := by
  refine ⟨fun m => ⟨rfl, rfl⟩, ?_, ?_, ?_, ?_, ?_, ?_, ?_, ?_, ?_, ?_⟩
  · intro args resp
    refine ⟨?_, ?_, ?_, ?_⟩
    · unfold handleCreateCard
      rcases createCardCore args with msg | note
      · rfl
      · rcases resp with e | id <;> rfl
    · unfold handleCreateCard
      rcases createCardCore args with msg | note
      · exact fun _ => ⟨msg, rfl⟩
      · rcases resp with e | id
        · exact fun _ => ⟨_, rfl⟩
        · exact fun h => absurd (okResult_not_error _ h) (by simp)
    · intro msg hmsg
      simp [handleCreateCard, hmsg]
    · intro note e hnote hresp
      subst hresp
      simp [handleCreateCard, hnote]
  · intro resp
    refine ⟨?_, ?_, ?_⟩
    · rcases resp with e | decks <;> rfl
    · rcases resp with e | decks
      · exact fun _ => ⟨_, rfl⟩
      · exact fun h => absurd (okResult_not_error _ h) (by simp)
    · intro e he
      subst he
      rfl
  · intro args resp
    refine ⟨?_, ?_, ?_, ?_⟩
    · unfold handleCreateDeck
      cases asString (lookupA args "deck_name") with
      | none => rfl
      | some d => rcases resp with _ | e <;> rfl
    · unfold handleCreateDeck
      cases asString (lookupA args "deck_name") with
      | none => exact fun _ => ⟨_, rfl⟩
      | some d =>
        rcases resp with _ | e
        · exact fun h => absurd (okResult_not_error _ h) (by simp)
        · exact fun _ => ⟨_, rfl⟩
    · intro h
      simp [handleCreateDeck, h]
    · intro d e hd he
      subst he
      simp [handleCreateDeck, hd]
  · intro resp
    refine ⟨?_, ?_, ?_⟩
    · rcases resp with e | models <;> rfl
    · rcases resp with e | models
      · exact fun _ => ⟨_, rfl⟩
      · exact fun h => absurd (okResult_not_error _ h) (by simp)
    · intro e he
      subst he
      rfl
  · intro args resp
    refine ⟨?_, ?_, ?_, ?_⟩
    · unfold handleGetModelFields
      cases asString (lookupA args "model_name") with
      | none => rfl
      | some mn => rcases resp with e | fields <;> rfl
    · unfold handleGetModelFields
      cases asString (lookupA args "model_name") with
      | none => exact fun _ => ⟨_, rfl⟩
      | some mn =>
        rcases resp with e | fields
        · exact fun _ => ⟨_, rfl⟩
        · exact fun h => absurd (okResult_not_error _ h) (by simp)
    · intro h
      simp [handleGetModelFields, h]
    · intro mn e hmn he
      subst he
      simp [handleGetModelFields, hmn]
  · intro resp
    refine ⟨?_, ?_, ?_⟩
    · rcases resp with _ | e <;> rfl
    · rcases resp with _ | e
      · exact fun h => absurd (okResult_not_error _ h) (by simp)
      · exact fun _ => ⟨_, rfl⟩
    · intro e he
      subst he
      rfl
  · intro resp
    refine ⟨?_, ?_, ?_⟩
    · rcases resp with _ | e <;> rfl
    · rcases resp with _ | e
      · exact fun h => absurd (okResult_not_error _ h) (by simp)
      · exact fun _ => ⟨_, rfl⟩
    · intro e he
      subst he
      rfl
  · intro args decodeResp storeResp
    refine ⟨?_, ?_, ?_, ?_, ?_, ?_⟩
    · unfold handleAddMedia
      cases asString (lookupA args "filename") with
      | none => rfl
      | some fn =>
        cases asString (lookupA args "data") with
        | none => rfl
        | some d =>
          rcases decodeResp with e | bytes
          · rfl
          · rcases storeResp with _ | e <;> rfl
    · unfold handleAddMedia
      cases asString (lookupA args "filename") with
      | none => exact fun _ => ⟨_, rfl⟩
      | some fn =>
        cases asString (lookupA args "data") with
        | none => exact fun _ => ⟨_, rfl⟩
        | some d =>
          rcases decodeResp with e | bytes
          · exact fun _ => ⟨_, rfl⟩
          · rcases storeResp with _ | e
            · exact fun h => absurd (okResult_not_error _ h) (by simp)
            · exact fun _ => ⟨_, rfl⟩
    · intro h
      simp [handleAddMedia, h]
    · intro fn hfn hd
      simp [handleAddMedia, hfn, hd]
    · intro fn d e hfn hd hdec
      subst hdec
      simp [handleAddMedia, hfn, hd]
    · intro fn d bytes e hfn hd hdec hst
      subst hdec
      subst hst
      simp [handleAddMedia, hfn, hd]
  · intro args resp
    refine ⟨?_, ?_, ?_, ?_⟩
    · unfold handleCreateCardWithMedia
      rcases createCardWithMediaCore args with msg | note
      · rfl
      · rcases resp with e | id <;> rfl
    · unfold handleCreateCardWithMedia
      rcases createCardWithMediaCore args with msg | note
      · exact fun _ => ⟨msg, rfl⟩
      · rcases resp with e | id
        · exact fun _ => ⟨_, rfl⟩
        · exact fun h => absurd (okResult_not_error _ h) (by simp)
    · intro msg hmsg
      simp [handleCreateCardWithMedia, hmsg]
    · intro note e hnote hresp
      subst hresp
      simp [handleCreateCardWithMedia, hnote]
  · intro args fr nr
    refine ⟨?_, ?_, ?_, ?_⟩
    · intro r h
      unfold handleSearchCards at h
      split at h
      · rename_i r0 hst
        obtain rfl := Option.some.inj h
        rcases searchStage1_result_shape args fr r0 hst with ⟨m, rfl⟩ | rfl
        · exact ⟨rfl, fun _ => ⟨m, rfl⟩⟩
        · exact ⟨rfl, fun hh => absurd (okResult_not_error _ hh) (by simp)⟩
      · rename_i ids hst
        unfold searchStage2 at h
        split at h
        · obtain rfl := Option.some.inj h
          exact ⟨rfl, fun _ => ⟨_, rfl⟩⟩
        · split at h
          · exact Option.noConfusion h
          · obtain rfl := Option.some.inj h
            exact ⟨rfl, fun hh => absurd (okResult_not_error _ hh) (by simp)⟩
    · intro hq
      have hst : searchStage1 args fr =
          SearchStage.result (errorResult "query is required and must be a string") := by
        simp [searchStage1, hq]
      simp [handleSearchCards, hst]
    · intro q e hq hfr
      subst hfr
      have hst : searchStage1 args (Except.error e) =
          SearchStage.result (errorResult ("Failed to search cards: " ++ e)) := by
        simp [searchStage1, hq]
      simp [handleSearchCards, hst]
    · intro ids e hst hnr
      subst hnr
      simp [handleSearchCards, hst, searchStage2]

/-- C5 witness: a concrete validation failure and a concrete propagated
RPC failure each return a nil Go error and the flagged `errorResult`. -/
theorem C5_handlers_well_formed_witness :
    handleCreateCard [] (Except.ok 0) =
      (errorResult "deck_name is required and must be a string", none) ∧
    handleSync (some "boom") =
      (errorResult ("Failed to sync: " ++ "boom"), none) ∧
    (errorResult ("Failed to sync: " ++ "boom")).isError = true := by
  obtain ⟨hshape, hcc, _, _, _, _, hsync, _, _, _, _⟩ := C5_handlers_well_formed
  exact ⟨(hcc [] (Except.ok 0)).2.2.1 _ rfl,
    (hsync (some "boom")).2.2 "boom" rfl,
    (hshape ("Failed to sync: " ++ "boom")).1⟩
